import Mathlib

/-
  Verification development for the EarthPulse repository.

  Shallow embedding of the data-fetch-and-comparison flow and of the small
  presentation-layer algorithms (story slider, image comparison slider,
  trend chart scaling, dashboard per-indicator fetch) in Lean 4.

  Numbers that are IEEE doubles in the TypeScript source are modelled as
  exact rationals (Rat); backend HTTP calls are modelled as oracles passed
  in explicitly, with success/failure as Except values.
-/

set_option maxHeartbeats 1000000

namespace EarthPulse

/-- Left-pads the decimal rendering of a natural number with zeros up to
width d. Helper for the toFixed model below. -/
def padZeros (d : Nat) (n : Nat) : String :=
  let s := toString n
  String.mk (List.replicate (d - s.length) '0') ++ s

/-- Model of the JavaScript Number.prototype.toFixed applied to an exact
rational: rounds to d decimal places and renders with exactly d decimals. -/
def ratToFixed (d : Nat) (q : Rat) : String :=
  let scaled : Int := round (q * (10 : Rat) ^ d)
  let sign := if scaled < 0 then "-" else ""
  let a := scaled.natAbs
  let base := 10 ^ d
  if d = 0 then sign ++ toString a
  else sign ++ toString (a / base) ++ "." ++ padZeros d (a % base)

/-- Rendering of a rational the way a JavaScript template literal renders a
number; exact when the value is an integer. -/
def jsNum (q : Rat) : String :=
  if q.den = 1 then toString q.num else toString q

/-- NDVI reading returned by the backend through apiService.getNDVIData;
the fields are exactly the ones the frontend components read. -/
structure NDVIData where
  average_ndvi : Rat
  vegetation_coverage_percent : Rat
  trend : String
deriving Repr, DecidableEq

/-- The comparison record built by the ComparisonTool fallback path and also
returned by the primary trend-comparison endpoint. -/
structure ComparisonResult where
  baseline_year : Int
  comparison_year : Int
  baseline_value : Rat
  comparison_value : Rat
  change_amount : Rat
  change_percentage : Rat
  trend_summary : String
deriving Repr, DecidableEq

/-- The slice of ComparisonTool React state that fetchComparison updates:
the results, error and loading useState slots. -/
structure CompState where
  results : Option ComparisonResult
  error : Option String
  loading : Bool
deriving Repr, DecidableEq

/-- Oracle for the two backend calls fetchComparison makes. A network
failure is an Except.error carrying the thrown message. -/
structure CompApi where
  getTemporalComparison :
    String → String → Int → Int → Bool → Except String (List ComparisonResult)
  getNDVIData : Int → String → Except String NDVIData

/-- A request issued against the backend, recorded so that theorems can
state that a code path performs no fetch at all. -/
inductive ApiRequest where
  | temporalComparison (indicator region : String) (baselineYear currentYear : Int)
      (flag : Bool)
  | ndviData (year : Int) (region : String)
deriving Repr, DecidableEq

/-- The user-visible message set by the outer catch of fetchComparison. -/
def comparisonErrorMessage (region : String) : String :=
  "Unable to fetch comparison data for " ++ region ++ ". Please try another region."

/-- The trend_summary string built by the fallback path of fetchComparison. -/
def trendSummary (changePct : Rat) (baselineYear currentYear : Int) : String :=
  "Vegetation Index changed by " ++ (if changePct > 0 then "+" else "") ++
    ratToFixed 2 changePct ++ "% over " ++ toString (currentYear - baselineYear) ++ " years"

/-- The comparison record computed by the fallback path of fetchComparison
from the two independently fetched NDVI readings. -/
def fallbackResult (comparisonYear currentYear : Int) (baseline latest : NDVIData) :
    ComparisonResult :=
  let changeAmount := latest.average_ndvi - baseline.average_ndvi
  let changePct :=
    if baseline.average_ndvi ≠ 0 then changeAmount / baseline.average_ndvi * 100 else 0
  { baseline_year := comparisonYear
    comparison_year := currentYear
    baseline_value := baseline.average_ndvi
    comparison_value := latest.average_ndvi
    change_amount := changeAmount
    change_percentage := changePct
    trend_summary := trendSummary changePct comparisonYear currentYear }

/-- The fallback branch of fetchComparison: fetch the baseline-year and the
current-year NDVI readings independently; a throw from either fetch is
handled by the outer catch, which sets the error message and clears the
stored results. The request list records the fetches that were issued. -/
def fetchFallback (api : CompApi) (comparisonYear currentYear : Int) (region : String)
    (st1 : CompState) (sofar : List ApiRequest) : CompState × List ApiRequest :=
  match api.getNDVIData comparisonYear region with
  | .error _ =>
    ({ st1 with
        error := some (comparisonErrorMessage region)
        results := none
        loading := false },
      sofar ++ [.ndviData comparisonYear region])
  | .ok baseline =>
    match api.getNDVIData currentYear region with
    | .error _ =>
      ({ st1 with
          error := some (comparisonErrorMessage region)
          results := none
          loading := false },
        sofar ++ [.ndviData comparisonYear region, .ndviData currentYear region])
    | .ok latest =>
      ({ st1 with
          results := some (fallbackResult comparisonYear currentYear baseline latest)
          loading := false },
        sofar ++ [.ndviData comparisonYear region, .ndviData currentYear region])

/-- Model of fetchComparison in ComparisonTool. Guard: when
comparisonYear ≥ currentYear the stored results are cleared and the function
returns without any fetch. Otherwise the primary combined trend-comparison
call is tried first; on a nonempty response its first record is stored; on a
throw or an empty response the fallback branch runs. The returned pair is the
final component state together with the list of backend requests issued. -/
def fetchComparison (api : CompApi) (comparisonYear currentYear : Int) (region : String)
    (st : CompState) : CompState × List ApiRequest :=
  if comparisonYear ≥ currentYear then
    ({ st with results := none }, [])
  else
    let st1 : CompState := { st with loading := true, error := none }
    match api.getTemporalComparison "ndvi" region comparisonYear currentYear false with
    | .ok data =>
      match data with
      | r :: _ =>
        ({ st1 with
            results := some r
            loading := false },
          [.temporalComparison "ndvi" region comparisonYear currentYear false])
      | [] =>
        fetchFallback api comparisonYear currentYear region st1
          [.temporalComparison "ndvi" region comparisonYear currentYear false]
    | .error _ =>
      fetchFallback api comparisonYear currentYear region st1
        [.temporalComparison "ndvi" region comparisonYear currentYear false]

/-- Modelled from the spec: the backend trend-comparison endpoint behind
apiService.getTemporalComparison is not part of src/. Per the spec a
ComparisonResult is keyed by the requested years (it is recomputed on every
change of (baselineYear, comparisonYear, region)), so a well-formed backend
response carries exactly the requested baseline and comparison years. -/
def ApiEchoesYears (api : CompApi) : Prop :=
  ∀ ind region b c f data,
    api.getTemporalComparison ind region b c f = .ok data →
    ∀ r ∈ data, r.baseline_year = b ∧ r.comparison_year = c

/-- Glacier reading returned by apiService.getGlacierData; the retreat rate
is optional in the response, and the dashboard substitutes 25 for a missing
or zero rate. -/
structure GlacierData where
  glacier_area_km2 : Rat
  retreat_rate_m_per_year : Option Rat
  trend : String
deriving Repr, DecidableEq

/-- Urban reading returned by apiService.getUrbanData. -/
structure UrbanData where
  urban_area_km2 : Rat
  built_up_percentage : Rat
  trend : String
deriving Repr, DecidableEq

/-- Temperature reading returned by apiService.getTemperatureData. -/
structure TemperatureData where
  average_temperature_c : Rat
  trend : String
deriving Repr, DecidableEq

/-- Dashboard indicator card state (EnvironmentalDashboard Indicator
interface); the icon field, a React component reference, carries no data and
is omitted. -/
structure Indicator where
  id : String
  name : String
  color : String
  description : String
  unit : String
  value : Rat
  trend : String
  status : String
  details : String
  isLoading : Bool
  error : Option String
deriving Repr, DecidableEq

/-- Oracle for the four per-indicator backend calls the dashboard makes. -/
structure DashApi where
  getNDVIData : Int → String → Except String NDVIData
  getGlacierData : Int → String → Except String GlacierData
  getUrbanData : Int → String → Except String UrbanData
  getTemperatureData : Int → String → Except String TemperatureData

/-- Model of the JavaScript expression x || d on an optional number: both a
missing value and a zero value are falsy and give the default. -/
def orDefault (x : Option Rat) (d : Rat) : Rat :=
  match x with
  | none => d
  | some v => if v = 0 then d else v

/-- The switch statement inside fetchEnvironmentalData: dispatch on the
indicator id, fetch the matching reading, and compute the (value, trend,
status) triple shown on the card. An unknown id fetches nothing and falls
through to (0, stable, stable), matching the undefined-variable defaults. -/
def fetchIndicatorData (api : DashApi) (year : Int) (id : String) :
    Except String (Rat × String × String) :=
  if id = "ndvi" then
    match api.getNDVIData year "nepal_himalayas" with
    | .error e => .error e
    | .ok d =>
      .ok (d.average_ndvi,
        (if d.trend = "increasing" then "+"
          else if d.trend = "decreasing" then "-" else "") ++
          ratToFixed 1 d.vegetation_coverage_percent ++ "%",
        d.trend)
  else if id = "glacier" then
    match api.getGlacierData year "nepal_himalayas" with
    | .error e => .error e
    | .ok d =>
      .ok (d.glacier_area_km2,
        (if d.trend = "decreasing" then "-"
          else if d.trend = "increasing" then "+" else "") ++
          jsNum (orDefault d.retreat_rate_m_per_year 25) ++ " km/y",
        d.trend)
  else if id = "urban" then
    match api.getUrbanData year "nepal_himalayas" with
    | .error e => .error e
    | .ok d =>
      .ok (d.urban_area_km2,
        (if d.trend = "expanding" then "+"
          else if d.trend = "contracting" then "-" else "") ++
          ratToFixed 1 d.built_up_percentage ++ "%",
        d.trend)
  else if id = "temperature" then
    match api.getTemperatureData year "nepal_himalayas" with
    | .error e => .error e
    | .ok d =>
      .ok (d.average_temperature_c,
        (if d.trend = "warming" then "+"
          else if d.trend = "cooling" then "-" else "") ++
          (if d.trend = "warming" then "1.8°C"
            else if d.trend = "cooling" then "1.2°C" else "stable"),
        d.trend)
  else .ok (0, "stable", "stable")

/-- One arm of the Promise.all map in fetchEnvironmentalData: on success the
card gets the fetched value, trend and status with the error slot cleared;
on a caught fetch error only isLoading and error change and every other
field of the card is kept. -/
def updateIndicator (api : DashApi) (year : Int) (ind : Indicator) : Indicator :=
  match fetchIndicatorData api year ind.id with
  | .ok (v, t, s) =>
    { ind with value := v, trend := t, status := s, isLoading := false, error := none }
  | .error e =>
    { ind with isLoading := false, error := some ("API Error: " ++ e) }

/-- fetchEnvironmentalData updates every indicator card independently via
Promise.all over the indicator list. -/
def fetchEnvironmentalData (api : DashApi) (year : Int) (inds : List Indicator) :
    List Indicator :=
  inds.map (updateIndicator api year)

/-- Story slider successor index from StorytellingModal: (prev + 1) modulo
the number of bundled stories. The stories list is bundled configuration
data; its length is the parameter len. For the operand signs arising here
the JavaScript remainder operator agrees with Int.emod. -/
def nextSlide (len i : Int) : Int := (i + 1) % len

/-- Story slider predecessor index from StorytellingModal:
(prev − 1 + stories.length) modulo stories.length. -/
def prevSlide (len i : Int) : Int := (i - 1 + len) % len

/-- Initial value of the sliderPosition state in ImageComparisonSlider. -/
def sliderPositionInit : Rat := 50

/-- Model of handleMove in ImageComparisonSlider for a mounted container:
the pointer position relative to the container, as a percentage of the
container width, clamped below by 0 and above by 100. -/
def handleMove (rectLeft rectWidth clientX : Rat) : Rat :=
  min (max ((clientX - rectLeft) / rectWidth * 100) 0) 100

/-- One input point of the TrendChart data prop. -/
structure DataPoint where
  year : Int
  value : Rat
deriving Repr, DecidableEq

/-- One computed chart point of TrendChart: viewport coordinates together
with the spread original point. -/
structure ChartPoint where
  x : Rat
  y : Rat
  year : Int
  value : Rat
deriving Repr, DecidableEq

/-- Math.min over a list as used by TrendChart; the chart guards against an
empty list, so the empty case is arbitrary. -/
def listMin : List Rat → Rat
  | [] => 0
  | v :: vs => vs.foldl min v

/-- Math.max over a list as used by TrendChart. -/
def listMax : List Rat → Rat
  | [] => 0
  | v :: vs => vs.foldl max v

/-- The point computation of TrendChart: minVal and maxVal pad the data
range by 10 percent on each side, x spreads indices over the 0..100
viewport, and y maps each value into the padded range, inverted. -/
def chartPoints (data : List DataPoint) : List ChartPoint :=
  match data with
  | [] => []
  | _ :: _ =>
    let values := data.map (fun d => d.value)
    let minVal := listMin values * (9 / 10)
    let maxVal := listMax values * (11 / 10)
    data.enum.map (fun p =>
      { x := (p.1 : Rat) / ((data.length : Rat) - 1) * 100
        y := 100 - (p.2.value - minVal) / (maxVal - minVal) * 100
        year := p.2.year
        value := p.2.value })

/-- Oracle whose primary and per-year calls all fail with a network error. -/
def failingApi : CompApi :=
  { getTemporalComparison := fun _ _ _ _ _ => .error "network"
    getNDVIData := fun _ _ => .error "network" }

/-- Oracle whose primary call fails and whose per-year NDVI fetches succeed
with average 0.48 for 2010 and 0.61 for any other year. -/
def api4861 : CompApi :=
  { getTemporalComparison := fun _ _ _ _ _ => .error "x"
    getNDVIData := fun year _ =>
      if year = 2010 then .ok ⟨48 / 100, 60, "increasing"⟩
      else .ok ⟨61 / 100, 65, "increasing"⟩ }

/-- Oracle whose primary call fails and whose baseline-year NDVI average is
exactly zero. -/
def apiZeroBaseline : CompApi :=
  { getTemporalComparison := fun _ _ _ _ _ => .error "x"
    getNDVIData := fun year _ =>
      if year = 2010 then .ok ⟨0, 50, "stable"⟩
      else .ok ⟨3 / 10, 55, "increasing"⟩ }

/-- Oracle whose primary call fails and whose fallback fetches succeed only
for the baseline year. -/
def apiSecondFetchFails : CompApi :=
  { getTemporalComparison := fun _ _ _ _ _ => .error "x"
    getNDVIData := fun year _ =>
      if year = 2010 then .ok ⟨48 / 100, 60, "increasing"⟩ else .error "network" }

/-- A comparison record standing for previously successful data held in the
results state slot before a failing refetch. -/
def sampleStoredResult : ComparisonResult :=
  { baseline_year := 2000
    comparison_year := 2015
    baseline_value := 1 / 2
    comparison_value := 3 / 5
    change_amount := 1 / 10
    change_percentage := 20
    trend_summary := "sample" }

/-- C1: when the fallback path of fetchComparison runs (primary combined
call failed or returned empty, both per-year fetches succeed), the stored
ComparisonResult satisfies changeAmount = currentValue − baselineValue, and
when the baseline value is nonzero also
changePercentage = (changeAmount / baselineValue) × 100, where the baseline
and current values are the fetched average NDVI values. -/
theorem comparison_fallback_change_formula
    (api : CompApi) (st : CompState) (b c : Int) (region : String)
    (hbc : b < c)
    (hprimary : (∃ e, api.getTemporalComparison "ndvi" region b c false = .error e) ∨
      api.getTemporalComparison "ndvi" region b c false = .ok [])
    (baseline latest : NDVIData)
    (hb : api.getNDVIData b region = .ok baseline)
    (hc : api.getNDVIData c region = .ok latest) :
    ∃ r, (fetchComparison api b c region st).1.results = some r ∧
      r.baseline_value = baseline.average_ndvi ∧
      r.comparison_value = latest.average_ndvi ∧
      r.change_amount = latest.average_ndvi - baseline.average_ndvi ∧
      (baseline.average_ndvi ≠ 0 →
        r.change_percentage = r.change_amount / baseline.average_ndvi * 100) := by
  have hge : ¬ b ≥ c := not_le.mpr hbc
  have hres : (fetchComparison api b c region st).1.results =
      some (fallbackResult b c baseline latest) := by
    rcases hprimary with ⟨e, he⟩ | he <;>
      simp [fetchComparison, fetchFallback, hge, he, hb, hc]
  refine ⟨fallbackResult b c baseline latest, hres, rfl, rfl, rfl, fun h0 => ?_⟩
  simp [fallbackResult, h0]

/-- C2: in the fallback computation a baseline NDVI average of 0 yields a
changePercentage of exactly 0; the dividing branch is guarded by the
nonzero test and is unreachable in that case. -/
theorem comparison_zero_baseline_percentage
    (api : CompApi) (st : CompState) (b c : Int) (region : String)
    (hbc : b < c)
    (hprimary : (∃ e, api.getTemporalComparison "ndvi" region b c false = .error e) ∨
      api.getTemporalComparison "ndvi" region b c false = .ok [])
    (baseline latest : NDVIData)
    (hb : api.getNDVIData b region = .ok baseline)
    (hc : api.getNDVIData c region = .ok latest)
    (hzero : baseline.average_ndvi = 0) :
    ∃ r, (fetchComparison api b c region st).1.results = some r ∧
      r.change_percentage = 0 := by
  have hge : ¬ b ≥ c := not_le.mpr hbc
  have hres : (fetchComparison api b c region st).1.results =
      some (fallbackResult b c baseline latest) := by
    rcases hprimary with ⟨e, he⟩ | he <;>
      simp [fetchComparison, fetchFallback, hge, he, hb, hc]
  exact ⟨fallbackResult b c baseline latest, hres, by simp [fallbackResult, hzero]⟩

/-- C3: when currentYear ≤ baselineYear, fetchComparison issues no backend
request at all and clears the stored results; and, for a backend whose
comparison responses carry the requested years, every stored
ComparisonResult has baselineYear strictly below comparisonYear. -/
theorem comparison_guard_and_year_invariant
    (api : CompApi) (st : CompState) (b c : Int) (region : String) :
    (c ≤ b → fetchComparison api b c region st = ({ st with results := none }, [])) ∧
    (ApiEchoesYears api → ∀ r, (fetchComparison api b c region st).1.results = some r →
      r.baseline_year < r.comparison_year) := by
  constructor
  · intro hcb
    simp [fetchComparison, ge_iff_le, hcb]
  · intro hecho r hr
    by_cases hcb : b ≥ c
    · simp [fetchComparison, hcb] at hr
    · have hbc : b < c := not_le.mp hcb
      cases hprim : api.getTemporalComparison "ndvi" region b c false with
      | ok data =>
        cases data with
        | nil =>
          cases hb : api.getNDVIData b region with
          | error e =>
            simp [fetchComparison, fetchFallback, hcb, hprim, hb] at hr
          | ok baseline =>
            cases hc' : api.getNDVIData c region with
            | error e =>
              simp [fetchComparison, fetchFallback, hcb, hprim, hb, hc'] at hr
            | ok latest =>
              have : r = fallbackResult b c baseline latest := by
                simpa [fetchComparison, fetchFallback, hcb, hprim, hb, hc'] using hr.symm
              subst this
              simpa [fallbackResult] using hbc
        | cons r0 rest =>
          have hr0 : r = r0 := by
            simpa [fetchComparison, hcb, hprim] using hr.symm
          obtain ⟨h1, h2⟩ := hecho "ndvi" region b c false (r0 :: rest) hprim r0 (by simp)
          rw [hr0, h1, h2]
          exact hbc
      | error e =>
        cases hb : api.getNDVIData b region with
        | error e2 =>
          simp [fetchComparison, fetchFallback, hcb, hprim, hb] at hr
        | ok baseline =>
          cases hc' : api.getNDVIData c region with
          | error e2 =>
            simp [fetchComparison, fetchFallback, hcb, hprim, hb, hc'] at hr
          | ok latest =>
            have : r = fallbackResult b c baseline latest := by
              simpa [fetchComparison, fetchFallback, hcb, hprim, hb, hc'] using hr.symm
            subst this
            simpa [fallbackResult] using hbc

/-- C4: if the primary combined trend-comparison call fails or returns an
empty list, and both independent per-year fetches succeed, fetchComparison
stores a non-null ComparisonResult. -/
theorem comparison_fallback_produces_result
    (api : CompApi) (st : CompState) (b c : Int) (region : String)
    (hbc : b < c)
    (hprimary : (∃ e, api.getTemporalComparison "ndvi" region b c false = .error e) ∨
      api.getTemporalComparison "ndvi" region b c false = .ok [])
    (baseline latest : NDVIData)
    (hb : api.getNDVIData b region = .ok baseline)
    (hc : api.getNDVIData c region = .ok latest) :
    (fetchComparison api b c region st).1.results.isSome = true := by
  have hge : ¬ b ≥ c := not_le.mpr hbc
  rcases hprimary with ⟨e, he⟩ | he <;>
    simp [fetchComparison, fetchFallback, hge, he, hb, hc]

/-- C5 counterexample: starting from a state holding a previously successful
ComparisonResult, a run in which the primary call and the fallback fetches
all fail does not keep that result next to the error message: the stored
results are cleared to none. -/
theorem comparison_failure_discards_previous_result :
    ((fetchComparison failingApi 2010 2020 "nepal_himalayas"
        { results := some sampleStoredResult, error := none, loading := false }).1.results
      ≠ some sampleStoredResult) ∧
    (fetchComparison failingApi 2010 2020 "nepal_himalayas"
        { results := some sampleStoredResult, error := none, loading := false }).1.results
      = none := by
  constructor
  · simp [fetchComparison, fetchFallback, failingApi]
  · simp [fetchComparison, fetchFallback, failingApi]

/-- C5 amended: when the primary call and the fallback fetches all fail,
fetchComparison surfaces the short user-visible error message and clears the
stored results to none (previously successful data is discarded, not kept
alongside the message), with loading reset. -/
theorem comparison_total_failure_surfaces_error
    (api : CompApi) (st : CompState) (b c : Int) (region : String)
    (hbc : b < c)
    (hprimary : (∃ e, api.getTemporalComparison "ndvi" region b c false = .error e) ∨
      api.getTemporalComparison "ndvi" region b c false = .ok [])
    (hfallback : (∃ e, api.getNDVIData b region = .error e) ∨
      (∃ d e, api.getNDVIData b region = .ok d ∧ api.getNDVIData c region = .error e)) :
    (fetchComparison api b c region st).1.error = some (comparisonErrorMessage region) ∧
    (fetchComparison api b c region st).1.results = none ∧
    (fetchComparison api b c region st).1.loading = false := by
  have hge : ¬ b ≥ c := not_le.mpr hbc
  rcases hfallback with ⟨e, hb⟩ | ⟨d, e, hb, hc⟩
  · rcases hprimary with ⟨e2, he⟩ | he <;>
      simp [fetchComparison, fetchFallback, hge, he, hb]
  · rcases hprimary with ⟨e2, he⟩ | he <;>
      simp [fetchComparison, fetchFallback, hge, he, hb, hc]

/-- C6: with a fetched baseline NDVI average of 0.48 and a current average
of 0.61, the fallback computation stores changeAmount = 0.13 and
changePercentage = (13 / 48) × 100 in exact rational arithmetic. -/
theorem comparison_example_048_061 :
    ∃ r, (fetchComparison api4861 2010 2020 "nepal_himalayas"
        { results := none, error := none, loading := false }).1.results = some r ∧
      r.change_amount = 13 / 100 ∧ r.change_percentage = 13 / 48 * 100 := by
  refine ⟨fallbackResult 2010 2020 ⟨48 / 100, 60, "increasing"⟩ ⟨61 / 100, 65, "increasing"⟩,
    ?_, ?_, ?_⟩
  · simp [fetchComparison, fetchFallback, api4861]
  · norm_num [fallbackResult]
  · norm_num [fallbackResult]

/-- The single record served by the echoing primary oracle below. -/
def echoResult (b c : Int) : ComparisonResult :=
  { baseline_year := b
    comparison_year := c
    baseline_value := 1 / 2
    comparison_value := 3 / 5
    change_amount := 1 / 10
    change_percentage := 20
    trend_summary := "s" }

/-- Oracle whose primary call succeeds and echoes the requested years. -/
def apiEchoPrimary : CompApi :=
  { getTemporalComparison := fun _ _ b c _ => .ok [echoResult b c]
    getNDVIData := fun _ _ => .error "unused" }

/-- The echoing primary oracle satisfies the backend year contract. -/
lemma apiEchoPrimary_echoes : ApiEchoesYears apiEchoPrimary := by
  intro ind region b c f data h r hr
  simp only [apiEchoPrimary, Except.ok.injEq] at h
  subst h
  simp only [List.mem_singleton] at hr
  subst hr
  exact ⟨rfl, rfl⟩

/-- Witness for C1 at a concrete oracle: baseline 0.48, current 0.61. -/
theorem comparison_fallback_change_formula_witness :
    ∃ r, (fetchComparison api4861 2010 2020 "nepal_himalayas"
        { results := none, error := none, loading := false }).1.results = some r ∧
      r.change_amount = 61 / 100 - 48 / 100 := by
  obtain ⟨r, h1, _, _, h4, _⟩ := comparison_fallback_change_formula api4861
    ⟨none, none, false⟩ 2010 2020 "nepal_himalayas" (by norm_num)
    (Or.inl ⟨"x", rfl⟩) ⟨48 / 100, 60, "increasing"⟩ ⟨61 / 100, 65, "increasing"⟩ rfl rfl
  exact ⟨r, h1, h4⟩

/-- Witness for C2 at a concrete oracle whose baseline average is zero. -/
theorem comparison_zero_baseline_percentage_witness :
    ∃ r, (fetchComparison apiZeroBaseline 2010 2020 "nepal_himalayas"
        { results := none, error := none, loading := false }).1.results = some r ∧
      r.change_percentage = 0 := by
  obtain ⟨r, h1, h2⟩ := comparison_zero_baseline_percentage apiZeroBaseline
    ⟨none, none, false⟩ 2010 2020 "nepal_himalayas" (by norm_num)
    (Or.inl ⟨"x", rfl⟩) ⟨0, 50, "stable"⟩ ⟨3 / 10, 55, "increasing"⟩ rfl rfl rfl
  exact ⟨r, h1, h2⟩

/-- Witness for C3: with currentYear 2010 ≤ baselineYear 2020 no request is
issued and the results are cleared; and at the echoing oracle a concrete
stored record has its baseline year below its comparison year. -/
theorem comparison_guard_and_year_invariant_witness :
    (fetchComparison failingApi 2020 2010 "nepal_himalayas"
        { results := some sampleStoredResult, error := none, loading := false } =
      ({ results := none, error := none, loading := false }, [])) ∧
    (echoResult 2010 2020).baseline_year < (echoResult 2010 2020).comparison_year := by
  constructor
  · exact (comparison_guard_and_year_invariant failingApi
      ⟨some sampleStoredResult, none, false⟩ 2020 2010 "nepal_himalayas").1 (by norm_num)
  · exact (comparison_guard_and_year_invariant apiEchoPrimary
      ⟨none, none, false⟩ 2010 2020 "nepal_himalayas").2 apiEchoPrimary_echoes
      (echoResult 2010 2020) rfl

/-- Witness for C4 at a concrete oracle with a failing primary call and two
succeeding per-year fetches. -/
theorem comparison_fallback_produces_result_witness :
    (fetchComparison api4861 2010 2020 "nepal_himalayas"
      { results := none, error := none, loading := false }).1.results.isSome = true :=
  comparison_fallback_produces_result api4861 ⟨none, none, false⟩ 2010 2020
    "nepal_himalayas" (by norm_num) (Or.inl ⟨"x", rfl⟩)
    ⟨48 / 100, 60, "increasing"⟩ ⟨61 / 100, 65, "increasing"⟩ rfl rfl

/-- Witness for the amended C5 at the all-failing oracle. -/
theorem comparison_total_failure_surfaces_error_witness :
    (fetchComparison failingApi 2010 2020 "nepal_himalayas"
        { results := some sampleStoredResult, error := none, loading := false }).1.error =
      some (comparisonErrorMessage "nepal_himalayas") ∧
    (fetchComparison failingApi 2010 2020 "nepal_himalayas"
        { results := some sampleStoredResult, error := none, loading := false }).1.results =
      none ∧
    (fetchComparison failingApi 2010 2020 "nepal_himalayas"
        { results := some sampleStoredResult, error := none, loading := false }).1.loading =
      false :=
  comparison_total_failure_surfaces_error failingApi
    ⟨some sampleStoredResult, none, false⟩ 2010 2020 "nepal_himalayas" (by norm_num)
    (Or.inl ⟨"network", rfl⟩) (Or.inl ⟨"network", rfl⟩)

/-- C7: story navigation is cyclic modulo the number of stories: for an
index in range, nextSlide is the successor wrapping past the last story to
0, prevSlide is the predecessor wrapping before 0 to the last index, and
both stay in range. -/
theorem story_navigation_cyclic (len i : Int) (hlen : 0 < len)
    (h0 : 0 ≤ i) (hi : i < len) :
    nextSlide len i = (if i + 1 = len then 0 else i + 1) ∧
    prevSlide len i = (if i = 0 then len - 1 else i - 1) ∧
    nextSlide len (len - 1) = 0 ∧
    prevSlide len 0 = len - 1 ∧
    0 ≤ nextSlide len i ∧ nextSlide len i < len ∧
    0 ≤ prevSlide len i ∧ prevSlide len i < len := by
  have hne : len ≠ 0 := by omega
  refine ⟨?_, ?_, ?_, ?_, ?_, ?_, ?_, ?_⟩
  · by_cases h : i + 1 = len
    · rw [if_pos h, nextSlide, h, Int.emod_self]
    · rw [if_neg h, nextSlide, Int.emod_eq_of_lt (by omega) (by omega)]
  · by_cases h : i = 0
    · rw [if_pos h, h, prevSlide]
      rw [show (0 : Int) - 1 + len = len - 1 by ring]
      exact Int.emod_eq_of_lt (by omega) (by omega)
    · rw [if_neg h, prevSlide]
      rw [show i - 1 + len = i - 1 + 1 * len by ring, Int.add_mul_emod_self]
      exact Int.emod_eq_of_lt (by omega) (by omega)
  · rw [nextSlide, show len - 1 + 1 = len by ring, Int.emod_self]
  · rw [prevSlide, show (0 : Int) - 1 + len = len - 1 by ring]
    exact Int.emod_eq_of_lt (by omega) (by omega)
  · exact Int.emod_nonneg _ hne
  · exact Int.emod_lt_of_pos _ hlen
  · exact Int.emod_nonneg _ hne
  · exact Int.emod_lt_of_pos _ hlen

/-- Witness for C7 at a five-story list and index 3. -/
theorem story_navigation_cyclic_witness :
    nextSlide 5 3 = 4 ∧ prevSlide 5 3 = 2 ∧ nextSlide 5 4 = 0 ∧ prevSlide 5 0 = 4 := by
  have h := story_navigation_cyclic 5 3 (by norm_num) (by norm_num) (by norm_num)
  refine ⟨?_, ?_, h.2.2.1, h.2.2.2.1⟩
  · rw [h.1]; norm_num
  · rw [h.2.1]; norm_num

/-- C8: the image comparison slider position starts at 50, and for every
pointer position (also outside the container) handleMove produces a value
clamped into the interval from 0 to 100. -/
theorem slider_position_clamped :
    sliderPositionInit = 50 ∧
    ∀ rectLeft rectWidth clientX : Rat,
      0 ≤ handleMove rectLeft rectWidth clientX ∧
        handleMove rectLeft rectWidth clientX ≤ 100 := by
  refine ⟨rfl, fun l w x => ⟨?_, ?_⟩⟩
  · exact le_min (le_max_right _ _) (by norm_num)
  · exact min_le_right _ _

/-- C9: when the fetch for an indicator fails, the returned card keeps
every data field of the previous card (value, trend, status, unit and the
rest) and only isLoading and error change; and each slot of the dashboard
list is updated independently of the other slots. -/
theorem dashboard_fetch_failure_is_isolated
    (api : DashApi) (year : Int) (ind : Indicator) (e : String)
    (hfail : fetchIndicatorData api year ind.id = .error e) :
    ((updateIndicator api year ind).id = ind.id ∧
      (updateIndicator api year ind).name = ind.name ∧
      (updateIndicator api year ind).color = ind.color ∧
      (updateIndicator api year ind).description = ind.description ∧
      (updateIndicator api year ind).unit = ind.unit ∧
      (updateIndicator api year ind).value = ind.value ∧
      (updateIndicator api year ind).trend = ind.trend ∧
      (updateIndicator api year ind).status = ind.status ∧
      (updateIndicator api year ind).details = ind.details ∧
      (updateIndicator api year ind).isLoading = false ∧
      (updateIndicator api year ind).error = some ("API Error: " ++ e)) ∧
    ∀ (inds : List Indicator) (i : Nat),
      (fetchEnvironmentalData api year inds)[i]? =
        (inds[i]?).map (updateIndicator api year) := by
  constructor
  · simp [updateIndicator, hfail]
  · intro inds i
    simp [fetchEnvironmentalData]

/-- Dashboard oracle on which every per-indicator fetch throws. -/
def failingDashApi : DashApi :=
  { getNDVIData := fun _ _ => .error "boom"
    getGlacierData := fun _ _ => .error "boom"
    getUrbanData := fun _ _ => .error "boom"
    getTemperatureData := fun _ _ => .error "boom" }

/-- A dashboard card holding previously fetched NDVI data. -/
def sampleIndicator : Indicator :=
  { id := "ndvi"
    name := "Vegetation Index"
    color := "green"
    description := "Normalized Difference Vegetation Index"
    unit := "NDVI"
    value := 42 / 100
    trend := "+61.0%"
    status := "increasing"
    details := "Measures plant health and density using satellite imagery"
    isLoading := true
    error := none }

/-- Witness for C9 at a failing oracle and a concrete NDVI card. -/
theorem dashboard_fetch_failure_is_isolated_witness :
    (updateIndicator failingDashApi 2024 sampleIndicator).value = sampleIndicator.value ∧
    (updateIndicator failingDashApi 2024 sampleIndicator).trend = sampleIndicator.trend ∧
    (updateIndicator failingDashApi 2024 sampleIndicator).status = sampleIndicator.status ∧
    (updateIndicator failingDashApi 2024 sampleIndicator).unit = sampleIndicator.unit ∧
    (updateIndicator failingDashApi 2024 sampleIndicator).isLoading = false ∧
    (updateIndicator failingDashApi 2024 sampleIndicator).error =
      some ("API Error: " ++ "boom") := by
  have h := dashboard_fetch_failure_is_isolated failingDashApi 2024 sampleIndicator "boom" rfl
  exact ⟨h.1.2.2.2.2.2.1, h.1.2.2.2.2.2.2.1, h.1.2.2.2.2.2.2.2.1, h.1.2.2.2.2.1,
    h.1.2.2.2.2.2.2.2.2.2.1, h.1.2.2.2.2.2.2.2.2.2.2⟩

/-- Folding min over a list never goes above the start value. -/
lemma foldl_min_le_init (xs : List Rat) (acc : Rat) : xs.foldl min acc ≤ acc := by
  induction xs generalizing acc with
  | nil => simp
  | cons y ys ih => exact le_trans (ih (min acc y)) (min_le_left _ _)

/-- Folding min over a list bounds every member from below. -/
lemma foldl_min_le_mem {xs : List Rat} {v : Rat} (hv : v ∈ xs) (acc : Rat) :
    xs.foldl min acc ≤ v := by
  induction xs generalizing acc with
  | nil => cases hv
  | cons y ys ih =>
    rcases List.mem_cons.mp hv with h | h
    · subst h
      exact le_trans (foldl_min_le_init ys (min acc v)) (min_le_right _ _)
    · exact ih h (min acc y)

/-- Folding max over a list never goes below the start value. -/
lemma init_le_foldl_max (xs : List Rat) (acc : Rat) : acc ≤ xs.foldl max acc := by
  induction xs generalizing acc with
  | nil => simp
  | cons y ys ih => exact le_trans (le_max_left _ _) (ih (max acc y))

/-- Folding max over a list bounds every member from above. -/
lemma mem_le_foldl_max {xs : List Rat} {v : Rat} (hv : v ∈ xs) (acc : Rat) :
    v ≤ xs.foldl max acc := by
  induction xs generalizing acc with
  | nil => cases hv
  | cons y ys ih =>
    rcases List.mem_cons.mp hv with h | h
    · subst h
      exact le_trans (le_max_right _ _) (init_le_foldl_max ys (max acc v))
    · exact ih h (max acc y)

/-- The fold computing listMin stays in the list or at the start value. -/
lemma foldl_min_mem (xs : List Rat) (acc : Rat) :
    xs.foldl min acc = acc ∨ xs.foldl min acc ∈ xs := by
  induction xs generalizing acc with
  | nil => exact Or.inl rfl
  | cons y ys ih =>
    rcases ih (min acc y) with h | h
    · rcases le_total acc y with hle | hle
      · rw [List.foldl_cons, h, min_eq_left hle]
        exact Or.inl rfl
      · rw [List.foldl_cons, h, min_eq_right hle]
        exact Or.inr (List.mem_cons_self _ _)
    · exact Or.inr (List.mem_cons_of_mem _ h)

/-- listMin of a list is below every member. -/
lemma listMin_le {l : List Rat} {v : Rat} (hv : v ∈ l) : listMin l ≤ v := by
  cases l with
  | nil => cases hv
  | cons x xs =>
    rcases List.mem_cons.mp hv with h | h
    · subst h
      exact foldl_min_le_init xs v
    · exact foldl_min_le_mem h x

/-- listMax of a list is above every member. -/
lemma le_listMax {l : List Rat} {v : Rat} (hv : v ∈ l) : v ≤ listMax l := by
  cases l with
  | nil => cases hv
  | cons x xs =>
    rcases List.mem_cons.mp hv with h | h
    · subst h
      exact init_le_foldl_max xs v
    · exact mem_le_foldl_max h x

/-- listMin of a nonempty list is one of its members. -/
lemma listMin_mem {l : List Rat} (hl : l ≠ []) : listMin l ∈ l := by
  cases l with
  | nil => exact absurd rfl hl
  | cons x xs =>
    rcases foldl_min_mem xs x with h | h
    · rw [listMin, h]
      exact List.mem_cons_self _ _
    · exact List.mem_cons_of_mem _ h

/-- A pair drawn from enumFrom has its index in the indicated window and its
payload in the list. -/
lemma mem_enumFrom_bounds {α : Type} {l : List α} {n : Nat} {q : Nat × α}
    (hq : q ∈ l.enumFrom n) : n ≤ q.1 ∧ q.1 < n + l.length ∧ q.2 ∈ l := by
  induction l generalizing n with
  | nil => cases hq
  | cons x xs ih =>
    rcases List.mem_cons.mp hq with h | h
    · subst h
      refine ⟨le_refl _, ?_, List.mem_cons_self _ _⟩
      rw [List.length_cons]
      omega
    · obtain ⟨h1, h2, h3⟩ := ih h
      refine ⟨by omega, ?_, List.mem_cons_of_mem _ h3⟩
      rw [List.length_cons]
      omega

/-- A pair drawn from enum has an index below the length and its payload in
the list. -/
lemma mem_enum_bounds {α : Type} {l : List α} {q : Nat × α} (hq : q ∈ l.enum) :
    q.1 < l.length ∧ q.2 ∈ l := by
  obtain ⟨_, h2, h3⟩ := mem_enumFrom_bounds (n := 0) hq
  exact ⟨by omega, h3⟩

/-- C10: for an input list with at least two points whose values are all
strictly positive, every computed TrendChart point lies inside the 0..100
drawing viewport in both coordinates, under the padded min/max scaling. -/
theorem trendchart_points_in_viewport
    (data : List DataPoint) (hlen : 2 ≤ data.length)
    (hpos : ∀ d ∈ data, 0 < d.value) :
    ∀ p ∈ chartPoints data, 0 ≤ p.x ∧ p.x ≤ 100 ∧ 0 ≤ p.y ∧ p.y ≤ 100 := by
  intro p hp
  cases data with
  | nil => simp at hlen
  | cons d0 rest =>
  simp only [chartPoints] at hp
  rw [List.mem_map] at hp
  obtain ⟨q, hq, rfl⟩ := hp
  obtain ⟨hqlt, hqmem⟩ := mem_enum_bounds hq
  dsimp only
  have hn2 : (2 : Rat) ≤ (((d0 :: rest).length : Nat) : Rat) := by exact_mod_cast hlen
  have hden : (0 : Rat) < (((d0 :: rest).length : Nat) : Rat) - 1 := by linarith
  have hile : (q.1 : Rat) ≤ (((d0 :: rest).length : Nat) : Rat) - 1 := by
    have : (q.1 : Rat) + 1 ≤ (((d0 :: rest).length : Nat) : Rat) := by
      exact_mod_cast Nat.succ_le_of_lt hqlt
    linarith
  have hvmem : q.2.value ∈ (d0 :: rest).map (fun d => d.value) :=
    List.mem_map_of_mem _ hqmem
  obtain ⟨dm, hdm, hdmeq⟩ :=
    List.mem_map.mp (listMin_mem (l := (d0 :: rest).map fun d => d.value) (by simp))
  have hmpos : 0 < listMin ((d0 :: rest).map fun d => d.value) := by
    rw [← hdmeq]
    exact hpos dm hdm
  have hmle : listMin ((d0 :: rest).map fun d => d.value) ≤ q.2.value := listMin_le hvmem
  have hMge : q.2.value ≤ listMax ((d0 :: rest).map fun d => d.value) := le_listMax hvmem
  set m := listMin ((d0 :: rest).map fun d => d.value) with hm
  set M := listMax ((d0 :: rest).map fun d => d.value) with hM
  have hMpos : 0 < M := lt_of_lt_of_le hmpos (le_trans hmle hMge)
  have hdenpos : 0 < M * (11 / 10) - m * (9 / 10) := by nlinarith [le_trans hmle hMge]
  have hnum0 : 0 ≤ q.2.value - m * (9 / 10) := by nlinarith
  have hnum1 : q.2.value - m * (9 / 10) ≤ M * (11 / 10) - m * (9 / 10) := by nlinarith
  have hr0 : 0 ≤ (q.2.value - m * (9 / 10)) / (M * (11 / 10) - m * (9 / 10)) :=
    div_nonneg hnum0 hdenpos.le
  have hr1 : (q.2.value - m * (9 / 10)) / (M * (11 / 10) - m * (9 / 10)) ≤ 1 :=
    (div_le_one hdenpos).mpr hnum1
  have hx0 : (0 : Rat) ≤ (q.1 : Rat) / ((((d0 :: rest).length : Nat) : Rat) - 1) :=
    div_nonneg (Nat.cast_nonneg _) hden.le
  have hx1 : (q.1 : Rat) / ((((d0 :: rest).length : Nat) : Rat) - 1) ≤ 1 :=
    (div_le_one hden).mpr hile
  refine ⟨?_, ?_, ?_, ?_⟩
  · exact mul_nonneg hx0 (by norm_num)
  · have := mul_le_mul_of_nonneg_right hx1 (show (0 : Rat) ≤ 100 by norm_num)
    linarith
  · have := mul_le_mul_of_nonneg_right hr1 (show (0 : Rat) ≤ 100 by norm_num)
    linarith
  · have := mul_nonneg hr0 (show (0 : Rat) ≤ 100 by norm_num)
    linarith

/-- A concrete two-point rising series for the C10 witness. -/
def sampleSeries : List DataPoint := [⟨2000, 1⟩, ⟨2001, 2⟩]

/-- Witness for C10: the first computed point of a concrete two-point
series lies in the viewport. -/
theorem trendchart_points_in_viewport_witness :
    0 ≤ (ChartPoint.mk 0 (1200 / 13) 2000 1).x ∧
    (ChartPoint.mk 0 (1200 / 13) 2000 1).x ≤ 100 ∧
    0 ≤ (ChartPoint.mk 0 (1200 / 13) 2000 1).y ∧
    (ChartPoint.mk 0 (1200 / 13) 2000 1).y ≤ 100 := by
  refine trendchart_points_in_viewport sampleSeries (by norm_num [sampleSeries])
    ?_ _ ?_
  · intro d hd
    simp only [sampleSeries, List.mem_cons, List.mem_singleton] at hd
    rcases hd with h | h | h
    · rw [h]; norm_num
    · rw [h]; norm_num
    · cases h
  · show ChartPoint.mk 0 (1200 / 13) 2000 1 ∈ chartPoints sampleSeries
    norm_num [chartPoints, sampleSeries, listMin, listMax]
    exact ⟨0, ⟨2000, 1⟩, by simp [List.enum, List.enumFrom], rfl, by norm_num, rfl, rfl⟩

end EarthPulse
